import Mathlib

/-!
Shallow embedding of the http-transport-circuit-breaker package
(lib/breaker.js and the callback guard in lib/wrap.js), together with
theorems about its circuit-breaker state machine: admission, the
deadline-timer race, failure accounting, fallback dispatch and the
pending-probe invariant.
-/

namespace CircuitBreaker

/-- The breaker states (the frozen State object in lib/breaker.js). -/
inductive BState where
  | OPEN
  | HALF_OPEN
  | CLOSE
  deriving DecidableEq

/-- Lower-cased state name: the notification emitted on entering a state. -/
def stateEventName : BState → String
  | .OPEN => "open"
  | .HALF_OPEN => "half_open"
  | .CLOSE => "close"

/-- A JavaScript Error as the breaker observes it: a message, a name field
(defaulting to "Error") and an optional code field. -/
structure JsError where
  message : String
  name : String := "Error"
  code : Option String := none
  deriving DecidableEq

/-- JavaScript disjunction on an optional string, as in
settings.openErrMsg || default: absent and empty strings are falsy. -/
def jsOrDefault (o : Option String) (d : String) : String :=
  match o with
  | some s => if s = "" then d else s
  | none => d

/-- The default isFailure classifier of the Defaults object: every error
counts as a failure. -/
def defaultIsFailure : JsError → Bool := fun _ => true

/-- The merged settings object; field defaults are those of Defaults.
maxFailureThreshold has no default and is never read by breaker.js; it is
kept because Object.assign copies it verbatim from the options. -/
structure Settings where
  maxFailures : Nat := 5
  timeout : Nat := 10000
  resetTimeout : Nat := 60000
  isFailure : JsError → Bool := defaultIsFailure
  maxFailureThreshold : Option Nat := none
  openErrMsg : Option String := none
  timeoutErrMsg : Option String := none

/-- The options argument of the constructor: any subset of the settings
fields may be supplied. -/
structure BreakerOptions where
  maxFailures : Option Nat := none
  timeout : Option Nat := none
  resetTimeout : Option Nat := none
  isFailure : Option (JsError → Bool) := none
  maxFailureThreshold : Option Nat := none
  openErrMsg : Option String := none
  timeoutErrMsg : Option String := none

/-- Object.assign of Defaults with the caller-supplied options: a supplied
field overrides the default, nothing is validated. -/
def mergeSettings (o : BreakerOptions) : Settings :=
  { maxFailures := o.maxFailures.getD 5,
    timeout := o.timeout.getD 10000,
    resetTimeout := o.resetTimeout.getD 60000,
    isFailure := o.isFailure.getD defaultIsFailure,
    maxFailureThreshold := o.maxFailureThreshold,
    openErrMsg := o.openErrMsg,
    timeoutErrMsg := o.timeoutErrMsg }

/-- The mutable breaker fields: current state, absolute failure counter and
the pending-probe flag. -/
structure BreakerCore where
  state : BState := .CLOSE
  numFailures : Nat := 0
  pendingClose : Bool := false
  deriving DecidableEq

/-- Guarded state change: assign and emit the state notification only when
the state actually changes; a transition to the current state is a no-op. -/
def Breaker.setState (b : BreakerCore) (s : BState) : BreakerCore × List String :=
  if b.state ≠ s then ({ b with state := s }, [stateEventName s]) else (b, [])

/-- Force the breaker into the OPEN state. -/
def Breaker.toOpen (b : BreakerCore) : BreakerCore × List String :=
  Breaker.setState b .OPEN

/-- Force the breaker into the HALF_OPEN state. -/
def Breaker.toHalfOpen (b : BreakerCore) : BreakerCore × List String :=
  Breaker.setState b .HALF_OPEN

/-- Reset the failure counter to zero, then change state to CLOSE (the
counter is zeroed even when the state is already CLOSE). -/
def Breaker.toClose (b : BreakerCore) : BreakerCore × List String :=
  Breaker.setState { b with numFailures := 0 } .CLOSE

/-- Failure bookkeeping: increment the counter, then open the circuit when
the state is HALF_OPEN or the incremented counter reaches maxFailures. -/
def Breaker.onFailure (maxFailures : Nat) (b : BreakerCore) : BreakerCore × List String :=
  let b1 := { b with numFailures := b.numFailures + 1 }
  if b1.state = .HALF_OPEN ∨ b1.numFailures ≥ maxFailures then Breaker.toOpen b1
  else (b1, [])

/-- The open-circuit rejection error built when a call is refused. -/
def openError (s : Settings) : JsError :=
  { message := jsOrDefault s.openErrMsg "Command not available." }

/-- The synthetic deadline-timer error: configurable message, name
commandTimeout, code ETIMEDOUT. -/
def timeoutError (s : Settings) : JsError :=
  { message := jsOrDefault s.timeoutErrMsg "Command timeout.",
    name := "commandTimeout",
    code := some "ETIMEDOUT" }

/-- Outcome classification: an error is trip-worthy when it is present
(truthy) and settings.isFailure accepts it. -/
def tripWorthy (s : Settings) (err : Option JsError) : Bool :=
  match err with
  | some e => s.isFailure e
  | none => false

/-- One protected call: the breaker fields, the shared liveness flag of the
deadline timer and the completion handler (the local timer variable), the
notifications emitted so far, and the list of invocations of the callback
the breaker received, each an error-first argument vector. -/
structure CallCtx where
  breaker : BreakerCore
  timerLive : Bool
  emitted : List String
  cbLog : List (Option JsError × List String)
  deriving DecidableEq

/-- Result of the admission phase: the per-call context plus whether the
command was invoked and a deadline timer armed. -/
structure RunStart where
  ctx : CallCtx
  executeInvoked : Bool
  timerArmed : Bool
  deriving DecidableEq

/-- The admission phase of the private run method: emit execute; when the
circuit is OPEN or a probe is pending, emit reject and invoke the callback
with the open error, touching nothing else; otherwise set the pending-probe
flag when HALF_OPEN, arm the deadline timer and invoke the command. -/
def runStart (s : Settings) (b : BreakerCore) : RunStart :=
  if b.state = .OPEN ∨ b.pendingClose = true then
    { ctx := { breaker := b,
               timerLive := false,
               emitted := ["execute", "reject"],
               cbLog := [(some (openError s), [])] },
      executeInvoked := false,
      timerArmed := false }
  else
    { ctx := { breaker := if b.state = .HALF_OPEN then { b with pendingClose := true } else b,
               timerLive := true,
               emitted := ["execute"],
               cbLog := [] },
      executeInvoked := true,
      timerArmed := true }

/-- The deadline-timer body: it can only act while the shared timer flag is
live; it consumes the flag, clears the pending probe, emits timeout,
registers one failure and invokes the callback with the timeout error. -/
def fireTimeout (s : Settings) (c : CallCtx) : CallCtx :=
  if c.timerLive = true then
    let r := Breaker.onFailure s.maxFailures { c.breaker with pendingClose := false }
    { breaker := r.1,
      timerLive := false,
      emitted := c.emitted ++ "timeout" :: r.2,
      cbLog := c.cbLog ++ [(some (timeoutError s), [])] }
  else c

/-- The completion handler appended to the command arguments: a no-op when
the shared timer flag is already consumed; otherwise it consumes the flag,
clears the pending probe, emits duration, registers a failure for a
trip-worthy error or closes the breaker otherwise, and forwards the
outcome to the callback unchanged. -/
def onreponse (s : Settings) (err : Option JsError) (data : List String) (c : CallCtx) : CallCtx :=
  if c.timerLive = true then
    let r :=
      if tripWorthy s err = true then
        let f := Breaker.onFailure s.maxFailures { c.breaker with pendingClose := false }
        (f.1, "failure" :: f.2)
      else
        let cl := Breaker.toClose { c.breaker with pendingClose := false }
        (cl.1, "success" :: cl.2)
    { breaker := r.1,
      timerLive := false,
      emitted := c.emitted ++ "duration" :: r.2,
      cbLog := c.cbLog ++ [(err, data)] }
  else c

/-- Events that can reach an in-flight call: the deadline timer firing, or
a real completion from the command with an error-first outcome. -/
inductive CallEv where
  | timeoutFire
  | complete (err : Option JsError) (data : List String)

/-- Deliver one event to an in-flight call. -/
def stepCall (s : Settings) (c : CallCtx) : CallEv → CallCtx
  | .timeoutFire => fireTimeout s c
  | .complete err data => onreponse s err data c

/-- Deliver a sequence of events to an in-flight call. -/
def runEvents (s : Settings) (c : CallCtx) (evs : List CallEv) : CallCtx :=
  evs.foldl (stepCall s) c

theorem setState_fst (b : BreakerCore) (s : BState) :
    (Breaker.setState b s).1 = if b.state = s then b else { b with state := s } := by
  unfold Breaker.setState
  by_cases h : b.state = s <;> simp [h]

theorem onFailure_fst (m : Nat) (b : BreakerCore) :
    (Breaker.onFailure m b).1 =
      if b.state = .HALF_OPEN ∨ b.numFailures + 1 ≥ m then
        { b with numFailures := b.numFailures + 1, state := .OPEN }
      else { b with numFailures := b.numFailures + 1 } := by
  rcases b with ⟨st, nf, pc⟩
  unfold Breaker.onFailure Breaker.toOpen Breaker.setState
  cases st <;> simp only [] <;> split <;> rfl

theorem toClose_fst (b : BreakerCore) :
    (Breaker.toClose b).1 = { b with numFailures := 0, state := .CLOSE } := by
  rcases b with ⟨st, nf, pc⟩
  unfold Breaker.toClose Breaker.setState
  cases st <;> simp

theorem toClose_snd (b : BreakerCore) :
    (Breaker.toClose b).2 = if b.state = .CLOSE then [] else ["close"] := by
  rcases b with ⟨st, nf, pc⟩
  unfold Breaker.toClose Breaker.setState
  cases st <;> simp [stateEventName]

/-- C1: on every invocation with the circuit OPEN or a probe pending, the
call is rejected: the callback the breaker received is invoked once with a
synthetic error whose message is the configured openErrMsg (defaulting to
"Command not available."), the command is not executed, no deadline timer
is armed, and the breaker fields (state, failure counter, pending-probe
flag) are untouched. -/
theorem C1_open_or_pending_rejects (s : Settings) (b : BreakerCore)
    (h : b.state = .OPEN ∨ b.pendingClose = true) :
    (runStart s b).executeInvoked = false ∧
    (runStart s b).timerArmed = false ∧
    (runStart s b).ctx.breaker = b ∧
    (runStart s b).ctx.cbLog =
      [(some { message := jsOrDefault s.openErrMsg "Command not available." }, [])] := by
  simp [runStart, h, openError]

theorem C1_open_or_pending_rejects_witness :
    (({ state := .OPEN } : BreakerCore).state = BState.OPEN ∨
      ({ state := .OPEN } : BreakerCore).pendingClose = true) ∧
    ((runStart {} { state := .OPEN }).executeInvoked = false ∧
     (runStart {} { state := .OPEN }).timerArmed = false ∧
     (runStart {} { state := .OPEN }).ctx.breaker = { state := .OPEN } ∧
     (runStart {} { state := .OPEN }).ctx.cbLog =
       [(some { message := jsOrDefault ({} : Settings).openErrMsg "Command not available." }, [])]) :=
  ⟨Or.inl rfl, C1_open_or_pending_rejects {} { state := .OPEN } (Or.inl rfl)⟩

theorem onFailure_fst_numFailures (m : Nat) (b : BreakerCore) :
    (Breaker.onFailure m b).1.numFailures = b.numFailures + 1 := by
  rw [onFailure_fst]; split <;> rfl

/-- C2: on a completed call classified trip-worthy, the absolute failure
counter is incremented by one, and the breaker ends OPEN when the
incremented counter reaches maxFailures or the state at completion is
HALF_OPEN; otherwise the state is unchanged. -/
theorem C2_trip_failure_accounting (s : Settings) (c : CallCtx)
    (err : Option JsError) (data : List String)
    (hl : c.timerLive = true) (ht : tripWorthy s err = true) :
    (onreponse s err data c).breaker.numFailures = c.breaker.numFailures + 1 ∧
    ((c.breaker.numFailures + 1 ≥ s.maxFailures ∨ c.breaker.state = .HALF_OPEN) →
      (onreponse s err data c).breaker.state = .OPEN) ∧
    (¬(c.breaker.numFailures + 1 ≥ s.maxFailures ∨ c.breaker.state = .HALF_OPEN) →
      (onreponse s err data c).breaker.state = c.breaker.state) := by
  have hbrk : (onreponse s err data c).breaker =
      (Breaker.onFailure s.maxFailures { c.breaker with pendingClose := false }).1 := by
    unfold onreponse; rw [if_pos hl, if_pos ht]
  rw [hbrk, onFailure_fst]
  refine ⟨by split <;> rfl, fun h => ?_, fun h => ?_⟩
  · rw [if_pos (Or.symm h)]
  · rw [if_neg (fun hcond => h (hcond.elim Or.inr Or.inl))]

theorem C2_trip_failure_accounting_witness :
    (({ breaker := { numFailures := 3 }, timerLive := true, emitted := [], cbLog := [] } :
        CallCtx).timerLive = true) ∧
    tripWorthy {} (some { message := "boom" }) = true ∧
    ((onreponse {} (some { message := "boom" }) []
        { breaker := { numFailures := 3 }, timerLive := true, emitted := [], cbLog := [] }).breaker.numFailures
      = ({ numFailures := 3 } : BreakerCore).numFailures + 1) :=
  ⟨rfl, rfl,
    (C2_trip_failure_accounting {}
      { breaker := { numFailures := 3 }, timerLive := true, emitted := [], cbLog := [] }
      (some { message := "boom" }) [] rfl rfl).1⟩

theorem stepCall_dead (s : Settings) (c : CallCtx) (e : CallEv)
    (h : c.timerLive = false) : stepCall s c e = c := by
  cases e
  · simp [stepCall, fireTimeout, h]
  · simp [stepCall, onreponse, h]

theorem stepCall_live_timer (s : Settings) (c : CallCtx) (e : CallEv)
    (h : c.timerLive = true) : (stepCall s c e).timerLive = false := by
  cases e
  · simp [stepCall, fireTimeout, h]
  · simp [stepCall, onreponse, h]

theorem stepCall_live_len (s : Settings) (c : CallCtx) (e : CallEv)
    (h : c.timerLive = true) : (stepCall s c e).cbLog.length = c.cbLog.length + 1 := by
  cases e
  · simp [stepCall, fireTimeout, h]
  · simp [stepCall, onreponse, h]

theorem runEvents_at_most_once (s : Settings) (c : CallCtx) (evs : List CallEv)
    (hinv : (c.timerLive = true → c.cbLog = []) ∧ c.cbLog.length ≤ 1) :
    (runEvents s c evs).cbLog.length ≤ 1 := by
  induction evs generalizing c with
  | nil => exact hinv.2
  | cons e evs ih =>
    have hstep : runEvents s c (e :: evs) = runEvents s (stepCall s c e) evs := rfl
    rw [hstep]
    by_cases h : c.timerLive = true
    · refine ih _ ⟨fun hlive => ?_, ?_⟩
      · rw [stepCall_live_timer s c e h] at hlive; cases hlive
      · rw [stepCall_live_len s c e h, hinv.1 h]; simp
    · rw [stepCall_dead s c e (by simpa using h)]
      exact ih c hinv

/-- C3: after an admitted call, the callback fires at most once over any
sequence of timer and completion events; when the deadline timer fires
first it delivers the synthetic timeout error (configurable message, name
commandTimeout, code ETIMEDOUT) and registers exactly one failure, and a
later real completion is a no-op; when the real completion fires first it
consumes the shared timer flag, so the timeout path is a no-op. -/
theorem C3_timeout_race (s : Settings) (b : BreakerCore) (c : CallCtx)
    (err0 : Option JsError) (data0 : List String)
    (hadm : ¬(b.state = .OPEN ∨ b.pendingClose = true))
    (hl : c.timerLive = true) :
    (∀ evs : List CallEv, (runEvents s ((runStart s b).ctx) evs).cbLog.length ≤ 1) ∧
    ((fireTimeout s c).cbLog = c.cbLog ++ [(some (timeoutError s), [])] ∧
      (timeoutError s).message = jsOrDefault s.timeoutErrMsg "Command timeout." ∧
      (timeoutError s).name = "commandTimeout" ∧
      (timeoutError s).code = some "ETIMEDOUT" ∧
      (fireTimeout s c).breaker.numFailures = c.breaker.numFailures + 1 ∧
      (∀ err data, onreponse s err data (fireTimeout s c) = fireTimeout s c)) ∧
    ((onreponse s err0 data0 c).timerLive = false ∧
      fireTimeout s (onreponse s err0 data0 c) = onreponse s err0 data0 c) := by
  refine ⟨fun evs => ?_, ⟨?_, rfl, rfl, rfl, ?_, fun err data => ?_⟩, ?_, ?_⟩
  · apply runEvents_at_most_once
    unfold runStart
    rw [if_neg hadm]
    exact ⟨fun _ => rfl, by simp⟩
  · simp [fireTimeout, hl]
  · simp [fireTimeout, hl, onFailure_fst_numFailures]
  · have hdead : (fireTimeout s c).timerLive = false := by simp [fireTimeout, hl]
    unfold onreponse
    rw [if_neg (by simp [hdead])]
  · simp [onreponse, hl]
  · have hdead : (onreponse s err0 data0 c).timerLive = false := by simp [onreponse, hl]
    unfold fireTimeout
    rw [if_neg (by simp [hdead])]

theorem C3_timeout_race_witness :
    (¬(({} : BreakerCore).state = .OPEN ∨ ({} : BreakerCore).pendingClose = true)) ∧
    (fireTimeout {} { breaker := {}, timerLive := true, emitted := [], cbLog := [] }).breaker.numFailures
      = ({} : BreakerCore).numFailures + 1 ∧
    (runEvents {} ((runStart {} {}).ctx) [CallEv.timeoutFire, CallEv.complete none []]).cbLog.length ≤ 1 :=
  ⟨by decide,
    (C3_timeout_race {} {} { breaker := {}, timerLive := true, emitted := [], cbLog := [] }
      none [] (by decide) rfl).2.1.2.2.2.2.1,
    (C3_timeout_race {} {} { breaker := {}, timerLive := true, emitted := [], cbLog := [] }
      none [] (by decide) rfl).1 _⟩

/-- C4: a HALF_OPEN probe call completing with an outcome that is not a
trip-worthy failure moves the breaker to CLOSE with the failure counter
reset to zero. -/
theorem C4_probe_success_closes (s : Settings) (c : CallCtx)
    (err : Option JsError) (data : List String)
    (hl : c.timerLive = true) (_hh : c.breaker.state = .HALF_OPEN)
    (hnt : tripWorthy s err = false) :
    (onreponse s err data c).breaker.state = .CLOSE ∧
    (onreponse s err data c).breaker.numFailures = 0 := by
  unfold onreponse
  rw [if_pos hl, if_neg (by simp [hnt])]
  simp [toClose_fst]

theorem C4_probe_success_closes_witness :
    (({ breaker := { state := .HALF_OPEN, numFailures := 2 }, timerLive := true,
        emitted := [], cbLog := [] } : CallCtx).timerLive = true) ∧
    (({ state := .HALF_OPEN, numFailures := 2 } : BreakerCore).state = .HALF_OPEN) ∧
    ((onreponse {} none ["ok"]
        { breaker := { state := .HALF_OPEN, numFailures := 2 }, timerLive := true,
          emitted := [], cbLog := [] }).breaker.state = .CLOSE ∧
     (onreponse {} none ["ok"]
        { breaker := { state := .HALF_OPEN, numFailures := 2 }, timerLive := true,
          emitted := [], cbLog := [] }).breaker.numFailures = 0) :=
  ⟨rfl, rfl,
    C4_probe_success_closes {}
      { breaker := { state := .HALF_OPEN, numFailures := 2 }, timerLive := true,
        emitted := [], cbLog := [] } none ["ok"] rfl rfl rfl⟩

def settingsC5 : Settings := { isFailure := fun _ => false }

def ctxC5 : CallCtx :=
  { breaker := { state := .CLOSE, numFailures := 1, pendingClose := false },
    timerLive := true, emitted := [], cbLog := [] }

/-- C5 counterexample: with an isFailure that rejects every error (a
non-trip-worthy error) and one failure already recorded, a completed call
carrying such an error resets the failure counter to zero, so the breaker
state is affected, contradicting the claim that the call leaves the
current state and failure counter untouched. -/
theorem C5_counterexample :
    settingsC5.isFailure { message := "boom" } = false ∧
    (onreponse settingsC5 (some { message := "boom" }) [] ctxC5).breaker.numFailures ≠
      ctxC5.breaker.numFailures := by
  exact ⟨rfl, by decide⟩

/-- C5 (amended): a completed call whose error is classified
non-trip-worthy forwards that error to the callback unchanged and never
opens the circuit, but it does affect the breaker: close() runs, so the
state becomes CLOSE and the failure counter resets to zero. -/
theorem C5_nontrip_forwarded_closes (s : Settings) (c : CallCtx)
    (e : JsError) (data : List String)
    (hl : c.timerLive = true) (hnt : s.isFailure e = false) :
    (onreponse s (some e) data c).cbLog = c.cbLog ++ [(some e, data)] ∧
    (onreponse s (some e) data c).breaker.state = .CLOSE ∧
    (onreponse s (some e) data c).breaker.numFailures = 0 := by
  unfold onreponse
  rw [if_pos hl, if_neg (by simp [tripWorthy, hnt])]
  simp [toClose_fst]

theorem C5_nontrip_forwarded_closes_witness :
    (ctxC5.timerLive = true) ∧
    (settingsC5.isFailure { message := "boom" } = false) ∧
    ((onreponse settingsC5 (some { message := "boom" }) ["d"] ctxC5).cbLog
        = ctxC5.cbLog ++ [(some { message := "boom" }, ["d"])] ∧
     (onreponse settingsC5 (some { message := "boom" }) ["d"] ctxC5).breaker.state = .CLOSE ∧
     (onreponse settingsC5 (some { message := "boom" }) ["d"] ctxC5).breaker.numFailures = 0) :=
  ⟨rfl, rfl,
    C5_nontrip_forwarded_closes settingsC5 ctxC5 { message := "boom" } ["d"] rfl rfl⟩

/-- C10: every completed call whose outcome is not a trip-worthy failure
runs close(): the failure counter becomes zero and the state CLOSE; when
the state was already CLOSE no transition happens and no state-entry
notification is emitted (only duration and success). -/
theorem C10_nontrip_calls_close (s : Settings) (c : CallCtx)
    (err : Option JsError) (data : List String)
    (hl : c.timerLive = true) (hnt : tripWorthy s err = false) :
    (onreponse s err data c).breaker.numFailures = 0 ∧
    (onreponse s err data c).breaker.state = .CLOSE ∧
    (c.breaker.state = .CLOSE →
      (onreponse s err data c).breaker.state = c.breaker.state ∧
      (onreponse s err data c).emitted = c.emitted ++ ["duration", "success"]) := by
  unfold onreponse
  rw [if_pos hl, if_neg (by simp [hnt])]
  refine ⟨by simp [toClose_fst], by simp [toClose_fst], fun hc => ⟨by simp [toClose_fst, hc], ?_⟩⟩
  simp [toClose_snd, hc]

theorem C10_nontrip_calls_close_witness :
    (({ breaker := { numFailures := 4 }, timerLive := true, emitted := [], cbLog := [] } :
        CallCtx).timerLive = true) ∧
    tripWorthy {} none = false ∧
    ((onreponse {} none []
        { breaker := { numFailures := 4 }, timerLive := true, emitted := [], cbLog := [] }).breaker.numFailures = 0 ∧
     (onreponse {} none []
        { breaker := { numFailures := 4 }, timerLive := true, emitted := [], cbLog := [] }).emitted
        = [] ++ ["duration", "success"]) :=
  ⟨rfl, rfl,
    (C10_nontrip_calls_close {}
      { breaker := { numFailures := 4 }, timerLive := true, emitted := [], cbLog := [] }
      none [] rfl rfl).1,
    ((C10_nontrip_calls_close {}
      { breaker := { numFailures := 4 }, timerLive := true, emitted := [], cbLog := [] }
      none [] rfl rfl).2.2 rfl).2⟩

/-- JavaScript typeof outcomes relevant to the constructor's assertions. -/
inductive JsType where
  | object
  | function
  | other
  deriving DecidableEq

/-- The command implementation value as the constructor inspects it: its
own typeof and the typeof of its execute property. -/
structure ImplVal where
  typeOf : JsType
  executeTypeOf : JsType
  deriving DecidableEq

/-- The constructor: assert the implementation shape, then merge the
options over the defaults with Object.assign; no option combination is
validated, so construction never fails because of the options. -/
def Breaker.construct (impl : ImplVal) (options : Option BreakerOptions) :
    Except String (Settings × BreakerCore) :=
  if impl.typeOf ≠ .object then
    .error "The command implementation must be an object."
  else if impl.executeTypeOf ≠ .function then
    .error "The command implementation must have a method named `execute`."
  else
    .ok (mergeSettings (options.getD {}), {})

/-- A well-formed command implementation: an object with an execute method. -/
def implObj : ImplVal := { typeOf := .object, executeTypeOf := .function }

/-- C6 evaluated at the failing input: the code accepts an options object
with both maxFailures and maxFailureThreshold set; construction succeeds,
merely merging both fields into the settings and producing a breaker,
whereas the claim (and the repository's own test suite) requires a
configuration error. -/
theorem C6_both_options_accepted :
    Breaker.construct implObj
        (some { maxFailures := some 1, maxFailureThreshold := some 10 })
      = .ok (mergeSettings { maxFailures := some 1, maxFailureThreshold := some 10 },
             ({} : BreakerCore)) ∧
    (mergeSettings { maxFailures := some 1, maxFailureThreshold := some 10 }).maxFailures = 1 ∧
    (mergeSettings { maxFailures := some 1, maxFailureThreshold := some 10 }).maxFailureThreshold
      = some 10 :=
  ⟨rfl, rfl, rfl⟩

/-- An argument of run: a plain value, the caller's original callback, or
the wrapper the fallback path installs in its place. -/
inductive Arg where
  | str (v : String)
  | cb
  | wrapperCb
  deriving DecidableEq

/-- Where the fallback wrapper routes a completion. -/
inductive FDispatch where
  | toFallback (orig : List Arg)
  | toCaller (err : Option JsError) (data : List String)
  deriving DecidableEq

/-- The wrapper run installs when a fallback breaker is attached: on an
error outcome while the primary is open, invoke the fallback's run with
the original argument vector; otherwise pop the original callback from
that vector and invoke it with the outcome untouched. -/
def fallbackWrapper (primaryOpen : Bool) (orig : List Arg)
    (err : Option JsError) (data : List String) : FDispatch :=
  if err.isSome && primaryOpen then .toFallback orig
  else .toCaller err data

/-- The argument rewriting done by the public run: with a fallback
attached, keep a copy of the original arguments (the data arguments plus
the caller's callback) and replace the trailing callback by the wrapper. -/
def runPrep (fallbackAttached : Bool) (userArgs : List String) :
    List Arg × Option (List Arg) :=
  let args := userArgs.map Arg.str ++ [Arg.cb]
  if fallbackAttached then (args.dropLast ++ [Arg.wrapperCb], some args)
  else (args, none)

/-- Query isOpen as the wrapper reads it. -/
def BreakerCore.isOpenQ (b : BreakerCore) : Bool :=
  match b.state with
  | .OPEN => true
  | _ => false

/-- C7: with a fallback attached, run records the original arguments
including the caller's callback and installs the wrapper in their place;
when the wrapped flow completes with an error while the primary is OPEN
at that moment (after the completion's own counter and state updates),
the wrapper routes the call to the fallback's run with exactly the
original arguments and not to the caller's callback; every other outcome
reaches the caller's callback unchanged. -/
theorem C7_fallback_dispatch (s : Settings) (c : CallCtx) (userArgs : List String)
    (err : Option JsError) (data : List String) :
    (runPrep true userArgs).2 = some (userArgs.map Arg.str ++ [Arg.cb]) ∧
    (runPrep true userArgs).1 = userArgs.map Arg.str ++ [Arg.wrapperCb] ∧
    (∀ e, err = some e → (onreponse s err data c).breaker.state = .OPEN →
      fallbackWrapper (onreponse s err data c).breaker.isOpenQ
          ((runPrep true userArgs).2.getD []) err data
        = .toFallback (userArgs.map Arg.str ++ [Arg.cb])) ∧
    ((err = none ∨ (onreponse s err data c).breaker.state ≠ .OPEN) →
      fallbackWrapper (onreponse s err data c).breaker.isOpenQ
          ((runPrep true userArgs).2.getD []) err data
        = .toCaller err data) := by
  refine ⟨rfl, ?_, fun e he hopen => ?_, fun h => ?_⟩
  · simp [runPrep]
  · have hq : (onreponse s err data c).breaker.isOpenQ = true := by
      unfold BreakerCore.isOpenQ
      rw [hopen]
    subst he
    simp [fallbackWrapper, hq, runPrep]
  · rcases h with h | h
    · subst h
      simp [fallbackWrapper]
    · have hq : (onreponse s err data c).breaker.isOpenQ = false := by
        unfold BreakerCore.isOpenQ
        cases hst : (onreponse s err data c).breaker.state <;> simp_all
      simp [fallbackWrapper, hq]

theorem C7_fallback_dispatch_witness :
    ((onreponse { maxFailures := 1 } (some { message := "kaput" }) []
        { breaker := {}, timerLive := true, emitted := [], cbLog := [] }).breaker.state
      = BState.OPEN) ∧
    fallbackWrapper
        (onreponse { maxFailures := 1 } (some { message := "kaput" }) []
          { breaker := {}, timerLive := true, emitted := [], cbLog := [] }).breaker.isOpenQ
        ((runPrep true ["u"]).2.getD []) (some { message := "kaput" }) []
      = .toFallback (["u"].map Arg.str ++ [Arg.cb]) :=
  ⟨by decide,
    (C7_fallback_dispatch { maxFailures := 1 }
      { breaker := {}, timerLive := true, emitted := [], cbLog := [] }
      ["u"] (some { message := "kaput" }) []).2.2.1 { message := "kaput" } rfl (by decide)⟩

/-- One invocation of the completion callback as the guard observes it:
the execution turn on which it occurs, counted from the turn of the
wrapped call (turn 0), and the delivered argument vector. -/
structure Invocation where
  turn : Nat
  args : List String
  deriving DecidableEq

/-- The container the callback guard installs in place of the trailing
callback. The sync flag of the source is set before the wrapped function
runs and cleared when it returns, so it is true exactly for invocations
on turn 0, the turn of the wrapped call itself; those are re-scheduled
through process.nextTick onto the following turn with the same arguments,
while any later invocation calls the callback directly. -/
def wrapContainer (inv : Invocation) : Invocation :=
  if inv.turn = 0 then { turn := 1, args := inv.args } else inv

/-- C8: the guarded callback is never invoked on the same turn as the
call that triggered it: a same-turn invocation is deferred to a later
turn with identical arguments, a later-turn invocation is delivered as
is, so the caller never observes reentrant synchronous completion. -/
theorem C8_guard_forces_async (inv : Invocation) :
    (wrapContainer inv).args = inv.args ∧
    (wrapContainer inv).turn ≠ 0 ∧
    (inv.turn = 0 → (wrapContainer inv).turn > inv.turn) ∧
    (inv.turn ≠ 0 → wrapContainer inv = inv) := by
  unfold wrapContainer
  by_cases h : inv.turn = 0 <;> simp [h]

theorem C8_guard_forces_async_witness :
    (wrapContainer { turn := 0, args := ["r"] }).turn ≠ 0 ∧
    (wrapContainer { turn := 0, args := ["r"] }).turn > 0 ∧
    wrapContainer { turn := 3, args := ["r"] } = { turn := 3, args := ["r"] } :=
  ⟨(C8_guard_forces_async { turn := 0, args := ["r"] }).2.1,
   (C8_guard_forces_async { turn := 0, args := ["r"] }).2.2.1 rfl,
   (C8_guard_forces_async { turn := 3, args := ["r"] }).2.2.2 (by decide)⟩

theorem setState_fst_pendingClose (b : BreakerCore) (s : BState) :
    (Breaker.setState b s).1.pendingClose = b.pendingClose := by
  rw [setState_fst]; split <;> rfl

theorem toOpen_fst_pendingClose (b : BreakerCore) :
    (Breaker.toOpen b).1.pendingClose = b.pendingClose :=
  setState_fst_pendingClose b .OPEN

theorem toHalfOpen_fst_pendingClose (b : BreakerCore) :
    (Breaker.toHalfOpen b).1.pendingClose = b.pendingClose :=
  setState_fst_pendingClose b .HALF_OPEN

theorem toClose_fst_pendingClose (b : BreakerCore) :
    (Breaker.toClose b).1.pendingClose = b.pendingClose := by
  rw [toClose_fst]

theorem onFailure_fst_pendingClose (m : Nat) (b : BreakerCore) :
    (Breaker.onFailure m b).1.pendingClose = b.pendingClose := by
  rw [onFailure_fst]; split <;> rfl

/-- An admitted call in the whole-breaker interleaving model: whether it
was admitted while HALF_OPEN (a probe) and whether its shared timer flag
is still live (its handler not yet consumed, so the call is outstanding). -/
structure AdmittedCall where
  probe : Bool
  timerLive : Bool
  deriving DecidableEq

/-- The whole breaker under concurrently outstanding calls: the
configured maxFailures, the mutable fields and every call admitted so
far. -/
structure Sys where
  maxFailures : Nat
  core : BreakerCore
  calls : List AdmittedCall
  deriving DecidableEq

/-- Consume the shared timer flag of call i. -/
def markDone (calls : List AdmittedCall) (i : Nat) : List AdmittedCall :=
  match calls.get? i with
  | some c => calls.set i { c with timerLive := false }
  | none => calls

/-- Interleaving events: a run invocation, call i's real completion with
its trip-worthiness classification, call i's deadline timer firing, and
the public transition operations (the half-open one also covers the reset
timer firing, which invokes the same method). -/
inductive SysEv where
  | runCall
  | complete (i : Nat) (trip : Bool)
  | timeoutFire (i : Nat)
  | publicOpen
  | publicHalfOpen
  | publicClose
  deriving DecidableEq

/-- One interleaving step: admission is refused while OPEN or while a
probe is pending; an admission during HALF_OPEN marks the probe pending;
completions and timer firings act only while the call's shared timer flag
is live, first consuming it and clearing pendingClose, then doing the
failure or close bookkeeping; the public operations invoke the
corresponding transition methods. -/
def Sys.step (sys : Sys) : SysEv → Sys
  | .runCall =>
    if sys.core.state = .OPEN ∨ sys.core.pendingClose = true then sys
    else if sys.core.state = .HALF_OPEN then
      { sys with core := { sys.core with pendingClose := true },
                 calls := sys.calls ++ [{ probe := true, timerLive := true }] }
    else
      { sys with calls := sys.calls ++ [{ probe := false, timerLive := true }] }
  | .complete i trip =>
    match sys.calls.get? i with
    | some c =>
      if c.timerLive = true then
        { sys with
          core :=
            if trip = true then
              (Breaker.onFailure sys.maxFailures { sys.core with pendingClose := false }).1
            else
              (Breaker.toClose { sys.core with pendingClose := false }).1,
          calls := markDone sys.calls i }
      else sys
    | none => sys
  | .timeoutFire i =>
    match sys.calls.get? i with
    | some c =>
      if c.timerLive = true then
        { sys with
          core := (Breaker.onFailure sys.maxFailures { sys.core with pendingClose := false }).1,
          calls := markDone sys.calls i }
      else sys
    | none => sys
  | .publicOpen => { sys with core := (Breaker.toOpen sys.core).1 }
  | .publicHalfOpen => { sys with core := (Breaker.toHalfOpen sys.core).1 }
  | .publicClose => { sys with core := (Breaker.toClose sys.core).1 }

/-- A fresh breaker: CLOSE, zero failures, no pending probe, no calls. -/
def Sys.init (maxFailures : Nat) : Sys :=
  { maxFailures := maxFailures, core := {}, calls := [] }

/-- Run a trace of interleaving events from a fresh breaker. -/
def Sys.runTrace (maxFailures : Nat) (evs : List SysEv) : Sys :=
  evs.foldl Sys.step (Sys.init maxFailures)

/-- Some admitted probe call is still outstanding. -/
def probeOutstanding (sys : Sys) : Prop :=
  ∃ c ∈ sys.calls, c.probe = true ∧ c.timerLive = true

theorem step_probe_invariant (sys : Sys) (e : SysEv)
    (h : sys.core.pendingClose = true → probeOutstanding sys) :
    (sys.step e).core.pendingClose = true → probeOutstanding (sys.step e) := by
  cases e with
  | runCall =>
    unfold Sys.step
    by_cases hr : sys.core.state = .OPEN ∨ sys.core.pendingClose = true
    · rw [if_pos hr]; exact h
    · rw [if_neg hr]
      by_cases hho : sys.core.state = .HALF_OPEN
      · rw [if_pos hho]
        refine fun _ => ⟨{ probe := true, timerLive := true }, ?_, rfl, rfl⟩
        exact List.mem_append_right _ (List.mem_singleton.mpr rfl)
      · rw [if_neg hho]
        intro hp
        exact absurd hp (by push_neg at hr; simp [hr.2])
  | complete i trip =>
    simp only [Sys.step]
    split
    · split
      · intro hp
        exfalso
        revert hp
        cases trip <;>
          simp [onFailure_fst_pendingClose, toClose_fst_pendingClose]
      · exact h
    · exact h
  | timeoutFire i =>
    simp only [Sys.step]
    split
    · split
      · intro hp
        exfalso
        revert hp
        simp [onFailure_fst_pendingClose]
      · exact h
    · exact h
  | publicOpen =>
    intro hp
    rw [show (sys.step .publicOpen).core.pendingClose = sys.core.pendingClose from
      toOpen_fst_pendingClose sys.core] at hp
    exact h hp
  | publicHalfOpen =>
    intro hp
    rw [show (sys.step .publicHalfOpen).core.pendingClose = sys.core.pendingClose from
      toHalfOpen_fst_pendingClose sys.core] at hp
    exact h hp
  | publicClose =>
    intro hp
    rw [show (sys.step .publicClose).core.pendingClose = sys.core.pendingClose from
      toClose_fst_pendingClose sys.core] at hp
    exact h hp

theorem foldl_probe_invariant (evs : List SysEv) (sys : Sys)
    (h : sys.core.pendingClose = true → probeOutstanding sys) :
    (evs.foldl Sys.step sys).core.pendingClose = true →
      probeOutstanding (evs.foldl Sys.step sys) := by
  induction evs generalizing sys with
  | nil => exact h
  | cons e evs ih => exact ih (sys.step e) (step_probe_invariant sys e h)

/-- C9 counterexample: force HALF_OPEN through the public transition
surface, admit the probe, then invoke the public open(): pendingClose is
still true while the state is OPEN, so pendingClose being true does not
imply the state is HALF_OPEN. -/
theorem C9_counterexample :
    (Sys.runTrace 5 [.publicHalfOpen, .runCall, .publicOpen]).core.pendingClose = true ∧
    (Sys.runTrace 5 [.publicHalfOpen, .runCall, .publicOpen]).core.state ≠ .HALF_OPEN := by
  decide

/-- C9 (amended): in every configuration reachable by any interleaving of
run calls, completions, timer firings and the public transition
operations, pendingClose is true only while some probe call (one admitted
while HALF_OPEN) is still outstanding; the state itself need not still be
HALF_OPEN, because a public transition issued during the probe can move
it. -/
theorem C9_pendingClose_needs_probe (maxFailures : Nat) (evs : List SysEv)
    (hp : (Sys.runTrace maxFailures evs).core.pendingClose = true) :
    probeOutstanding (Sys.runTrace maxFailures evs) :=
  foldl_probe_invariant evs (Sys.init maxFailures)
    (fun hfalse => absurd hfalse (by simp [Sys.init])) hp

theorem C9_pendingClose_needs_probe_witness :
    (Sys.runTrace 5 [.publicHalfOpen, .runCall]).core.pendingClose = true ∧
    probeOutstanding (Sys.runTrace 5 [.publicHalfOpen, .runCall]) :=
  ⟨by decide, C9_pendingClose_needs_probe 5 [.publicHalfOpen, .runCall] (by decide)⟩

end CircuitBreaker
